import Mathlib

/-!
Verification development for the hissabbook-api-system backend.

This file shallowly embeds the OTP issuance-and-verification subsystem
(`src/routes/otp.js`) and the identity-resolution helpers
(`src/utils/fileUpload.js` together with the `/create-user` handler of the
auth routes), and proves or refutes the specified properties about them.

Modelling conventions:
- the `otp_codes` table is a list of records plus a fresh-id counter;
  `created_at` is a strictly increasing insertion counter, so the SQL
  `ORDER BY created_at DESC LIMIT 1` is the first match in the reversed list;
- time is a natural number of milliseconds (`Date.now()`);
- a fallible downstream channel send (`sendOtpSms` / `sendOtpEmail`) is an
  explicit boolean outcome parameter of the request handler, since the
  handler only distinguishes "the awaited send resolved" from "it threw";
- a thrown JavaScript exception is an `Option`/error value in the result.
-/

namespace Hissab

/-- A row of the `otp_codes` table: exactly one of `phone`/`email` is set by
the code paths that insert rows. `createdAt` is the insertion counter. -/
structure OtpRecord where
  id : Nat
  phone : Option String
  email : Option String
  code : String
  used : Bool
  createdAt : Nat
  expiresAt : Nat
  deriving DecidableEq, Repr

/-- The `otp_codes` table with a fresh-id/insertion counter. -/
structure OtpDb where
  records : List OtpRecord
  nextId : Nat
  deriving DecidableEq, Repr

def emptyOtpDb : OtpDb := ⟨[], 0⟩

/-- Embeds `INSERT INTO public.otp_codes (phone|email, code, expires_at)`:
appends a row with `used = false` (column default) and a fresh id;
`createdAt := nextId` models the monotone `created_at DEFAULT now()`. -/
def insertOtp (db : OtpDb) (phone email : Option String) (code : String)
    (expiresAt : Nat) : OtpDb :=
  { records := db.records ++
      [{ id := db.nextId, phone := phone, email := email, code := code,
         used := false, createdAt := db.nextId, expiresAt := expiresAt }],
    nextId := db.nextId + 1 }

/-- Embeds `SELECT ... WHERE phone = $1 ORDER BY created_at DESC LIMIT 1`:
the most recently inserted record whose `phone` column equals the key. -/
def latestByPhone (db : OtpDb) (phone : String) : Option OtpRecord :=
  db.records.reverse.find? (fun r => r.phone == some phone)

/-- Embeds `SELECT ... WHERE email = $1 ORDER BY created_at DESC LIMIT 1`. -/
def latestByEmail (db : OtpDb) (email : String) : Option OtpRecord :=
  db.records.reverse.find? (fun r => r.email == some email)

/-- Embeds `UPDATE public.otp_codes SET used = true WHERE id = $1`. -/
def markUsed (db : OtpDb) (i : Nat) : OtpDb :=
  { db with records :=
      db.records.map (fun r => if r.id = i then { r with used := true } else r) }

/-- The distinct user-visible outcomes of the verify handlers: `badRequest`
is the 400 "Either phone or email is required", the others are the reply
messages "OTP not found", "OTP already used", "OTP expired", "Invalid OTP"
and `{success: true}`. -/
inductive VerifyOutcome where
  | success
  | notFound
  | alreadyUsed
  | expired
  | mismatch
  | badRequest
  deriving DecidableEq, Repr

/-- Embeds the phone branch of the `/verify` handler: fetch the latest
record for the phone, then check `used`, then `now > expires_at`, then
`otp.code !== code`, and only on success run the `markUsed` update. -/
def verifyPhone (db : OtpDb) (phone code : String) (now : Nat) :
    VerifyOutcome × OtpDb :=
  match latestByPhone db phone with
  | none => (.notFound, db)
  | some otp =>
      if otp.used then (.alreadyUsed, db)
      else if otp.expiresAt < now then (.expired, db)
      else if otp.code ≠ code then (.mismatch, db)
      else (.success, markUsed db otp.id)

/-- Models JavaScript `String.prototype.toLowerCase()`: lower-case every
character (written over the character list so it evaluates in the kernel). -/
def strLower (s : String) : String := String.mk (s.data.map Char.toLower)

/-- Embeds the `/email/verify` handler (and the email branch of `/verify`):
identical checks against the latest record for `email.toLowerCase()`. -/
def verifyEmail (db : OtpDb) (email code : String) (now : Nat) :
    VerifyOutcome × OtpDb :=
  match latestByEmail db (strLower email) with
  | none => (.notFound, db)
  | some otp =>
      if otp.used then (.alreadyUsed, db)
      else if otp.expiresAt < now then (.expired, db)
      else if otp.code ≠ code then (.mismatch, db)
      else (.success, markUsed db otp.id)

/-- Truthiness of an optional request-body string, as JavaScript sees it in
`if (!phone && !email)` / `if (phone)`: absent or empty is falsy. -/
def strTruthy : Option String → Bool
  | none => false
  | some s => !(s == "")

/-- Embeds the `/verify` handler's channel selection: 400 when neither
field is truthy, otherwise the phone-scoped lookup when `phone` is truthy,
and the email-scoped lookup only when it is not. -/
def verifyHandler (db : OtpDb) (phoneField emailField : Option String)
    (code : String) (now : Nat) : VerifyOutcome × OtpDb :=
  if !strTruthy phoneField && !strTruthy emailField then (.badRequest, db)
  else if strTruthy phoneField then verifyPhone db (phoneField.getD "") code now
  else verifyEmail db (emailField.getD "") code now

/-- Outcome of the request handlers: `{success: true, expiresAt}` or the
500 reply produced by the catch block. -/
inductive RequestOutcome where
  | success (expiresAt : Nat)
  | failure
  deriving DecidableEq, Repr

/-- Embeds the `/request` handler: compute `expiresAt = now + TTL minutes`,
await `sendOtpSms` (outcome passed in as `sendOk`), and only if the send
did not throw, insert the row — storing the raw request `phone` — and reply
success; a thrown send is caught before the insert and replied as failure. -/
def requestOtp (db : OtpDb) (phone code : String) (now ttlMinutes : Nat)
    (sendOk : Bool) : RequestOutcome × OtpDb :=
  let expiresAt := now + ttlMinutes * 60 * 1000
  if sendOk then (.success expiresAt, insertOtp db (some phone) none code expiresAt)
  else (.failure, db)

/-- Embeds the `/email/request` handler: like `/request` but the stored
identity is `email.toLowerCase()`. -/
def requestEmailOtp (db : OtpDb) (email code : String) (now ttlMinutes : Nat)
    (sendOk : Bool) : RequestOutcome × OtpDb :=
  let expiresAt := now + ttlMinutes * 60 * 1000
  if sendOk then
    (.success expiresAt, insertOtp db none (some (strLower email)) code expiresAt)
  else (.failure, db)

/-- Strips every non-digit character, embedding `phone.replace(/\D/g, "")`. -/
def stripNonDigits (s : String) : String := String.mk (s.data.filter Char.isDigit)

/-- The distinct exception messages thrown by `formatPhoneNumber`, each
carrying the original input and (where the source includes it) the digit
count, for diagnostics. -/
inductive PhoneError where
  | tooShort (raw : String)
  | tooLong (raw : String) (digits : Nat)
  | badLength (raw : String) (digits : Nat)
  deriving DecidableEq, Repr

/-- Models `s.startsWith(p)` on the underlying character lists. -/
def strStarts (s p : String) : Bool := p.data.isPrefixOf s.data

/-- The final length validation of `formatPhoneNumber`: 10–15 digits after
formatting, otherwise the "Expected 10-15 digits" exception. -/
def phoneFinalCheck (raw c : String) : Except PhoneError String :=
  if c.length < 10 ∨ c.length > 15 then .error (.badLength raw c.length)
  else .ok c

/-- Embeds `formatPhoneNumber` from `src/routes/otp.js`: strip non-digits,
reject fewer than 10 digits, rewrite a leading-zero 11-digit number or a
bare 10-digit number to a "91"-prefixed one, accept a 12-digit "91" number
unchanged, reject more than 15 digits, and finally validate 10–15 digits. -/
def formatPhoneNumber (phone : String) : Except PhoneError String :=
  let cleaned := stripNonDigits phone
  if cleaned.length < 10 then .error (.tooShort phone)
  else if strStarts cleaned "0" ∧ cleaned.length = 11 then
    phoneFinalCheck phone ("91" ++ cleaned.drop 1)
  else if cleaned.length = 10 then phoneFinalCheck phone ("91" ++ cleaned)
  else if strStarts cleaned "91" ∧ cleaned.length = 12 then
    phoneFinalCheck phone cleaned
  else if cleaned.length > 15 then .error (.tooLong phone cleaned.length)
  else phoneFinalCheck phone cleaned

/-- Final acceptance of the spec's normalizer: "the result be 10–15 digits". -/
def specFinalCheck (c : String) : Option String :=
  if 10 ≤ c.length ∧ c.length ≤ 15 then some c else none

/-- The spec's (§4.1) case analysis for `normalize`, written from its words:
strip non-digits; reject under 10 digits; leading-zero 11-digit numbers get
the zero replaced by "91"; exactly-10-digit numbers get "91" prepended;
12-digit numbers starting "91" pass unchanged; over 15 digits is rejected;
finally exactly the results of 10–15 digits are accepted, everything else
is `InvalidPhone` (collapsed here to `none`). -/
def specNormalize (raw : String) : Option String :=
  let d := stripNonDigits raw
  if d.length < 10 then none
  else if strStarts d "0" ∧ d.length = 11 then specFinalCheck ("91" ++ d.drop 1)
  else if d.length = 10 then specFinalCheck ("91" ++ d)
  else if strStarts d "91" ∧ d.length = 12 then specFinalCheck d
  else if d.length > 15 then none
  else specFinalCheck d

/-- A row of the `public.users` table, restricted to the columns the claims
about identity creation mention (`password_hash`, `status` and timestamps
are carried along by the real queries but never branched on). The stored
email is already lower-cased by every writer. -/
structure UserRow where
  id : Nat
  email : String
  deriving DecidableEq, Repr

/-- A row of `public.user_details`, restricted to the columns `createUser`
writes. -/
structure UserDetailRow where
  userId : Nat
  firstName : Option String
  lastName : Option String
  phone : Option String
  deriving DecidableEq, Repr

/-- The relational store seen by the identity-resolution code: the users
table, the user-details table, the set of existing role names
(`public.roles`) and the `public.user_roles` assignment table. -/
structure UsersDb where
  users : List UserRow
  details : List UserDetailRow
  roles : List String
  userRoles : List (Nat × String)
  deriving DecidableEq, Repr

def emptyUsersDb : UsersDb := ⟨[], [], [], []⟩

/-- Embeds `findUserByEmail`: `SELECT * FROM public.users WHERE email = $1
LIMIT 1` with the lower-cased argument. -/
def findUserByEmail (db : UsersDb) (email : String) : Option UserRow :=
  db.users.find? (fun u => u.email == strLower email)

/-- Embeds the plain `INSERT INTO public.users (id, email, password_hash)`
of `createUser` (no `ON CONFLICT` clause). Modelled from the spec: the
users table's unique email constraint (§3 "exactly one UserIdentity per
case-folded email") — the migration SQL is not in the excerpted source —
so a duplicate insert raises a unique-violation error, here `none`. -/
def insertUserRow (db : UsersDb) (id : Nat) (emailLower : String) :
    Option (UserRow × UsersDb) :=
  if db.users.any (fun u => u.email == emailLower) then none
  else some (⟨id, emailLower⟩, { db with users := db.users ++ [⟨id, emailLower⟩] })

/-- Embeds the `user_details` upsert inside `createUser`:
`INSERT ... ON CONFLICT (user_id) DO UPDATE SET x = COALESCE(EXCLUDED.x, old.x)`. -/
def upsertDetail (db : UsersDb) (uid : Nat) (fn ln ph : Option String) : UsersDb :=
  if db.details.any (fun d => d.userId == uid) then
    { db with details := db.details.map (fun d =>
        if d.userId = uid then
          { d with firstName := fn.orElse (fun _ => d.firstName),
                   lastName := ln.orElse (fun _ => d.lastName),
                   phone := ph.orElse (fun _ => d.phone) }
        else d) }
  else { db with details := db.details ++ [⟨uid, fn, ln, ph⟩] }

/-- Embeds `assignRole`: look the role name up in `public.roles`, throwing
(`none`) when absent, otherwise insert into `public.user_roles` with
`ON CONFLICT DO NOTHING`. -/
def assignRole (db : UsersDb) (uid : Nat) (roleName : String) : Option UsersDb :=
  if db.roles.contains roleName then
    some { db with userRoles :=
      if db.userRoles.contains (uid, roleName) then db.userRoles
      else db.userRoles ++ [(uid, roleName)] }
  else none

/-- Embeds the `try { await assignRole } catch { log }` inside `createUser`:
a failed role assignment is swallowed and the store left as it was. -/
def tryAssignRole (db : UsersDb) (uid : Nat) (roleName : String) : UsersDb :=
  match assignRole db uid roleName with
  | some db2 => db2
  | none => db

/-- Models `list.isPrefixOf candidate || scan the tail`, i.e. whether `pat`
occurs contiguously inside the second list. -/
def charsContain (pat : List Char) : List Char → Bool
  | [] => pat.isEmpty
  | c :: rest => pat.isPrefixOf (c :: rest) || charsContain pat rest

/-- Embeds `email.includes("@hissabbook.temp")`. -/
def hasTempDomain (email : String) : Bool :=
  charsContain "@hissabbook.temp".data email.data

/-- Embeds `createUser` from `src/utils/fileUpload.js`: insert the users
row (lower-cased email); when any detail hint is present or the email is a
temp placeholder, upsert the `user_details` row — this statement is NOT in
a try/catch, so its failure (injected through the `detailOk` oracle, the
store being fallible) propagates after the users row is already persisted;
then attempt the role assignment with failures swallowed; finally return
the user. The first component is the returned user, `none` when the call
threw; the second is the resulting store. -/
def createUser (db : UsersDb) (id : Nat) (email : String)
    (firstName lastName phone : Option String) (role : String)
    (detailOk : Bool) : Option UserRow × UsersDb :=
  match insertUserRow db id (strLower email) with
  | none => (none, db)
  | some (u, db1) =>
      if firstName.isSome || lastName.isSome || phone.isSome || hasTempDomain email then
        if detailOk then
          (some u, tryAssignRole (upsertDetail db1 u.id firstName lastName phone) u.id role)
        else (none, db1)
      else (some u, tryAssignRole db1 u.id role)

/-- The user-visible outcomes of the `/create-user` handler: a login token
for an existing user, a 201 for a created user, or the 500 produced by an
uncaught exception (the handler body has no try/catch). -/
inductive CreateOutcome where
  | loginExisting (id : Nat)
  | created (id : Nat)
  | serverError
  deriving DecidableEq, Repr

/-- The part of the `/create-user` handler that runs after its
`findUserByEmail` lookup, taking that lookup's result as an argument so
interleavings of two concurrent requests can be expressed: an existing
user is returned as a login, otherwise `createUser(email, role "managers")`
runs, and an exception from it escapes as a 500. -/
def createUserAction (db : UsersDb) (found : Option UserRow) (id : Nat)
    (email : String) : CreateOutcome × UsersDb :=
  match found with
  | some u => (.loginExisting u.id, db)
  | none =>
      match createUser db id email none none none "managers" true with
      | (some u, db2) => (.created u.id, db2)
      | (none, db2) => (.serverError, db2)

/-- Two `/create-user` requests for the same email run strictly one after
the other: each performs its lookup against the store it actually sees. -/
def createUserTwiceSeq (db : UsersDb) (email : String) (idA idB : Nat) :
    CreateOutcome × CreateOutcome × UsersDb :=
  let a := createUserAction db (findUserByEmail db email) idA email
  let b := createUserAction a.2 (findUserByEmail a.2 email) idB email
  (a.1, b.1, b.2)

/-- The racy interleaving of two concurrent `/create-user` requests for the
same email: both `findUserByEmail` lookups complete (against the original
store) before either insert runs; nothing in the handler or `createUser`
locks the identity or upserts, so this schedule is possible. -/
def createUserTwiceOverlapped (db : UsersDb) (email : String) (idA idB : Nat) :
    CreateOutcome × CreateOutcome × UsersDb :=
  let fA := findUserByEmail db email
  let fB := findUserByEmail db email
  let a := createUserAction db fA idA email
  let b := createUserAction a.2 fB idB email
  (a.1, b.1, b.2)

/-! Helper lemmas about the store operations. -/

/-- Inserting a phone record makes it the latest record for that phone. -/
theorem latestByPhone_insertOtp_self (db : OtpDb) (p : String) (em : Option String)
    (c : String) (exp : Nat) :
    latestByPhone (insertOtp db (some p) em c exp) p =
      some { id := db.nextId, phone := some p, email := em, code := c,
             used := false, createdAt := db.nextId, expiresAt := exp } := by
  simp [latestByPhone, insertOtp, List.find?]

/-- Inserting an email record makes it the latest record for that email. -/
theorem latestByEmail_insertOtp_self (db : OtpDb) (e : String) (ph : Option String)
    (c : String) (exp : Nat) :
    latestByEmail (insertOtp db ph (some e) c exp) e =
      some { id := db.nextId, phone := ph, email := some e, code := c,
             used := false, createdAt := db.nextId, expiresAt := exp } := by
  simp [latestByEmail, insertOtp, List.find?]

/-- The record update performed by `markUsed` on a single row. -/
def setUsed (i : Nat) (r : OtpRecord) : OtpRecord :=
  if r.id = i then { r with used := true } else r

theorem setUsed_phone (i : Nat) (r : OtpRecord) : (setUsed i r).phone = r.phone := by
  unfold setUsed; split <;> rfl

theorem setUsed_email (i : Nat) (r : OtpRecord) : (setUsed i r).email = r.email := by
  unfold setUsed; split <;> rfl

theorem markUsed_records (db : OtpDb) (i : Nat) :
    (markUsed db i).records = db.records.map (setUsed i) := by
  simp [markUsed, setUsed]

theorem find?_map_setUsed_phone (l : List OtpRecord) (i : Nat) (p : String) :
    (l.map (setUsed i)).find? (fun r => r.phone == some p)
      = (l.find? (fun r => r.phone == some p)).map (setUsed i) := by
  induction l with
  | nil => rfl
  | cons a t ih =>
      by_cases h : (a.phone == some p) = true
      · simp [List.find?_cons, setUsed_phone, h]
      · simp only [List.map_cons, List.find?_cons, setUsed_phone, h]
        simpa [setUsed_phone, h] using ih

theorem find?_map_setUsed_email (l : List OtpRecord) (i : Nat) (e : String) :
    (l.map (setUsed i)).find? (fun r => r.email == some e)
      = (l.find? (fun r => r.email == some e)).map (setUsed i) := by
  induction l with
  | nil => rfl
  | cons a t ih =>
      by_cases h : (a.email == some e) = true
      · simp [List.find?_cons, setUsed_email, h]
      · simp only [List.map_cons, List.find?_cons, setUsed_email, h]
        simpa [setUsed_email, h] using ih

/-- `markUsed` commutes with the latest-by-phone lookup. -/
theorem latestByPhone_markUsed (db : OtpDb) (i : Nat) (p : String) :
    latestByPhone (markUsed db i) p = (latestByPhone db p).map (setUsed i) := by
  simp only [latestByPhone, markUsed_records]
  rw [← List.map_reverse, find?_map_setUsed_phone]

/-- `markUsed` commutes with the latest-by-email lookup. -/
theorem latestByEmail_markUsed (db : OtpDb) (i : Nat) (e : String) :
    latestByEmail (markUsed db i) e = (latestByEmail db e).map (setUsed i) := by
  simp only [latestByEmail, markUsed_records]
  rw [← List.map_reverse, find?_map_setUsed_email]

/-- C1: for every identity, after issuing a code a verify with that code
within the TTL succeeds exactly once — the first verify returns success and
marks the stored record used, and any second verify with the same code on
the same identity fails with "OTP already used" — on both the phone and the
email channel. -/
theorem c1_verify_succeeds_exactly_once (db : OtpDb) (phone email code : String)
    (now ttl t1 t2 : Nat) (h : t1 ≤ now + ttl * 60 * 1000) :
    ((verifyPhone (requestOtp db phone code now ttl true).2 phone code t1).1 = .success ∧
     latestByPhone (verifyPhone (requestOtp db phone code now ttl true).2 phone code t1).2 phone =
       some { id := db.nextId, phone := some phone, email := none, code := code,
              used := true, createdAt := db.nextId, expiresAt := now + ttl * 60 * 1000 } ∧
     (verifyPhone (verifyPhone (requestOtp db phone code now ttl true).2 phone code t1).2
        phone code t2).1 = .alreadyUsed) ∧
    ((verifyEmail (requestEmailOtp db email code now ttl true).2 email code t1).1 = .success ∧
     (verifyEmail (verifyEmail (requestEmailOtp db email code now ttl true).2 email code t1).2
        email code t2).1 = .alreadyUsed) := by
  have hexp : ¬ (now + ttl * 60 * 1000 < t1) := Nat.not_lt.mpr h
  refine ⟨⟨?_, ?_, ?_⟩, ⟨?_, ?_⟩⟩ <;>
    simp [requestOtp, requestEmailOtp, verifyPhone, verifyEmail,
      latestByPhone_insertOtp_self, latestByEmail_insertOtp_self,
      latestByPhone_markUsed, latestByEmail_markUsed, setUsed, hexp]

/-- C1 witness: the property at a concrete store, phone, code and times. -/
theorem c1_witness :
    300000 ≤ 0 + 5 * 60 * 1000 ∧
    (verifyPhone (verifyPhone (requestOtp emptyOtpDb "9876543210" "123456" 0 5 true).2
        "9876543210" "123456" 300000).2 "9876543210" "123456" 999999).1 = .alreadyUsed :=
  ⟨by decide,
   (c1_verify_succeeds_exactly_once emptyOtpDb "9876543210" "User@Example.com" "123456"
      0 5 300000 999999 (by decide)).1.2.2⟩

/-- C2: the verifier's checks run in the fixed order not-found, used,
expired, mismatch: a missing record reports not-found; a used record
reports already-used regardless of expiry or code match; an unused record
that is both expired and mismatched reports expired, not mismatch. -/
theorem c2_check_order (db : OtpDb) (phone code : String) (now : Nat) :
    (latestByPhone db phone = none → (verifyPhone db phone code now).1 = .notFound) ∧
    (∀ r, latestByPhone db phone = some r → r.used = true →
      (verifyPhone db phone code now).1 = .alreadyUsed) ∧
    (∀ r, latestByPhone db phone = some r → r.used = false → r.expiresAt < now →
      r.code ≠ code → (verifyPhone db phone code now).1 = .expired) := by
  refine ⟨?_, ?_, ?_⟩
  · intro h; simp [verifyPhone, h]
  · intro r h hu; simp [verifyPhone, h, hu]
  · intro r h hu hexp hc; simp [verifyPhone, h, hu, hexp, hc]

/-- C2 witness: the three branches at concrete stores — an empty store, a
store whose latest record is used, and one whose latest record is expired
with a different code. -/
theorem c2_witness :
    latestByPhone emptyOtpDb "9876543210" = none ∧
    (verifyPhone emptyOtpDb "9876543210" "1234" 0).1 = .notFound ∧
    (verifyPhone ⟨[⟨0, some "9876543210", none, "111111", true, 0, 300000⟩], 1⟩
      "9876543210" "111111" 0).1 = .alreadyUsed ∧
    (verifyPhone ⟨[⟨0, some "9876543210", none, "111111", false, 0, 10⟩], 1⟩
      "9876543210" "222222" 50).1 = .expired :=
  ⟨rfl, (c2_check_order emptyOtpDb "9876543210" "1234" 0).1 rfl,
   (c2_check_order ⟨[⟨0, some "9876543210", none, "111111", true, 0, 300000⟩], 1⟩
      "9876543210" "111111" 0).2.1 ⟨0, some "9876543210", none, "111111", true, 0, 300000⟩
      rfl rfl,
   (c2_check_order ⟨[⟨0, some "9876543210", none, "111111", false, 0, 10⟩], 1⟩
      "9876543210" "222222" 50).2.2 ⟨0, some "9876543210", none, "111111", false, 0, 10⟩
      rfl rfl (by decide) (by decide)⟩

/-- C3: when the channel send throws, the handler replies failure and no
record is persisted, so a later verify for that identity (which had no
prior record) still reports "OTP not found" — on both channels. -/
theorem c3_failed_send_no_record (db : OtpDb) (phone email code : String)
    (now ttl t : Nat) (hp : latestByPhone db phone = none)
    (he : latestByEmail db (strLower email) = none) :
    requestOtp db phone code now ttl false = (.failure, db) ∧
    verifyPhone db phone code t = (.notFound, db) ∧
    requestEmailOtp db email code now ttl false = (.failure, db) ∧
    verifyEmail db email code t = (.notFound, db) := by
  refine ⟨rfl, ?_, rfl, ?_⟩
  · simp [verifyPhone, hp]
  · simp [verifyEmail, he]

/-- C3 witness: a failed send against the empty store. -/
theorem c3_witness :
    latestByPhone emptyOtpDb "9876543210" = none ∧
    (requestOtp emptyOtpDb "9876543210" "123456" 0 5 false = (.failure, emptyOtpDb) ∧
     verifyPhone emptyOtpDb "9876543210" "123456" 10 = (.notFound, emptyOtpDb)) :=
  ⟨rfl,
   ⟨(c3_failed_send_no_record emptyOtpDb "9876543210" "user@example.com" "123456"
       0 5 10 rfl rfl).1,
    (c3_failed_send_no_record emptyOtpDb "9876543210" "user@example.com" "123456"
       0 5 10 rfl rfl).2.1⟩⟩

/-- C4: after two codes are issued in sequence for the same phone, only the
second is verifiable: the first code now reports "Invalid OTP" (the lookup
consults only the most recent record) and the second succeeds. -/
theorem c4_latest_record_supersedes (db : OtpDb) (phone c1 c2 : String)
    (now1 now2 ttl t : Nat) (hne : c1 ≠ c2) (ht : t ≤ now2 + ttl * 60 * 1000) :
    (verifyPhone (requestOtp (requestOtp db phone c1 now1 ttl true).2
        phone c2 now2 ttl true).2 phone c1 t).1 = .mismatch ∧
    (verifyPhone (requestOtp (requestOtp db phone c1 now1 ttl true).2
        phone c2 now2 ttl true).2 phone c2 t).1 = .success := by
  have hexp : ¬ (now2 + ttl * 60 * 1000 < t) := Nat.not_lt.mpr ht
  have h21 : c2 ≠ c1 := Ne.symm hne
  constructor <;>
    simp [requestOtp, verifyPhone, latestByPhone_insertOtp_self, hexp, h21]

/-- C4 witness: two concrete sequential issues for one phone. -/
theorem c4_witness :
    ("111111" : String) ≠ "222222" ∧
    (verifyPhone (requestOtp (requestOtp emptyOtpDb "9876543210" "111111" 0 5 true).2
        "9876543210" "222222" 60000 5 true).2 "9876543210" "111111" 70000).1 = .mismatch :=
  ⟨by decide,
   (c4_latest_record_supersedes emptyOtpDb "9876543210" "111111" "222222"
      0 60000 5 70000 (by decide) (by decide)).1⟩

/-- C5 counterexample: requesting an OTP for phone "9876543210" does NOT
store the normalized identity "919876543210" — a verify that looks up
"919876543210" finds nothing, while the raw string "9876543210" is the
stored identity. -/
theorem c5_counterexample :
    latestByPhone (requestOtp emptyOtpDb "9876543210" "123456" 0 5 true).2
      "919876543210" = none ∧
    (verifyPhone (requestOtp emptyOtpDb "9876543210" "123456" 0 5 true).2
      "919876543210" "123456" 0).1 = .notFound ∧
    latestByPhone (requestOtp emptyOtpDb "9876543210" "123456" 0 5 true).2
      "9876543210" = some ⟨0, some "9876543210", none, "123456", false, 0, 300000⟩ :=
  ⟨rfl, rfl, rfl⟩

/-- C5 amended: the identity stored in the OTP store is the raw submitted
phone string — requesting an OTP for a phone stores, and verification looks
up, exactly that string; `formatPhoneNumber` normalization is applied only
to the outbound SMS destination, never to the stored key. -/
theorem c5_raw_phone_identity (db : OtpDb) (phone code : String) (now ttl : Nat) :
    latestByPhone (requestOtp db phone code now ttl true).2 phone =
      some { id := db.nextId, phone := some phone, email := none, code := code,
             used := false, createdAt := db.nextId, expiresAt := now + ttl * 60 * 1000 } := by
  simp [requestOtp, latestByPhone_insertOtp_self]

/-- C6: `formatPhoneNumber` computes exactly the spec's case analysis for
`normalize`: strip non-digits, reject under 10 digits, rewrite leading-zero
11-digit and bare 10-digit inputs with the "91" prefix, accept 12-digit
"91" inputs unchanged, reject over 15 digits, and finally accept exactly
the results of 10–15 digits. -/
theorem c6_normalize_matches_spec (raw : String) :
    (formatPhoneNumber raw).toOption = specNormalize raw := by
  have hfin : ∀ c : String, (phoneFinalCheck raw c).toOption = specFinalCheck c := by
    intro c
    unfold phoneFinalCheck specFinalCheck
    split_ifs with h1 h2 h2 <;> first | rfl | omega
  simp only [formatPhoneNumber, specNormalize]
  split_ifs <;> first | rfl | exact hfin _

/-- C8: a failed verification leaves the store unchanged, and on success
exactly one record — the latest, previously unused one — has its used flag
set, nothing else changing. -/
theorem c8_failure_leaves_store_unchanged (db : OtpDb) (phone code : String)
    (now : Nat) :
    ((verifyPhone db phone code now).1 ≠ .success →
      (verifyPhone db phone code now).2 = db) ∧
    ((verifyPhone db phone code now).1 = .success →
      ∃ r, latestByPhone db phone = some r ∧ r.used = false ∧
        (verifyPhone db phone code now).2 = markUsed db r.id ∧
        (verifyPhone db phone code now).2.records = db.records.map (setUsed r.id)) := by
  cases h : latestByPhone db phone with
  | none => simp [verifyPhone, h]
  | some r =>
      by_cases hu : r.used = true
      · simp [verifyPhone, h, hu]
      · by_cases hexp : r.expiresAt < now
        · simp [verifyPhone, h, hu, hexp]
        · by_cases hc : r.code = code
          · refine ⟨fun hne => absurd ?_ hne, fun _ => ⟨r, rfl, ?_, ?_, ?_⟩⟩
            · simp [verifyPhone, h, hu, hexp, hc]
            · simpa using hu
            · simp [verifyPhone, h, hu, hexp, hc]
            · simp [verifyPhone, h, hu, hexp, hc, markUsed_records]
          · simp [verifyPhone, h, hu, hexp, hc]

/-- C8 witness: a mismatch verification against a concrete store leaves it
unchanged. -/
theorem c8_witness :
    (verifyPhone ⟨[⟨0, some "9876543210", none, "111111", false, 0, 300000⟩], 1⟩
      "9876543210" "222222" 0).1 ≠ .success ∧
    (verifyPhone ⟨[⟨0, some "9876543210", none, "111111", false, 0, 300000⟩], 1⟩
      "9876543210" "222222" 0).2 =
      ⟨[⟨0, some "9876543210", none, "111111", false, 0, 300000⟩], 1⟩ :=
  ⟨by decide,
   (c8_failure_leaves_store_unchanged
      ⟨[⟨0, some "9876543210", none, "111111", false, 0, 300000⟩], 1⟩
      "9876543210" "222222" 0).1 (by decide)⟩

/-- C10: when a `/verify` request carries both a (truthy) phone and an
email, the handler behaves exactly as if the email were omitted — it runs
the phone-scoped lookup only — and the email-scoped lookup runs only when
no phone is present. -/
theorem c10_phone_branch_priority (db : OtpDb) (p e code : String) (now : Nat)
    (hp : p ≠ "") :
    verifyHandler db (some p) (some e) code now = verifyHandler db (some p) none code now ∧
    verifyHandler db (some p) (some e) code now = verifyPhone db p code now ∧
    (e ≠ "" → verifyHandler db none (some e) code now = verifyEmail db e code now) := by
  refine ⟨?_, ?_, fun he => ?_⟩ <;> simp [verifyHandler, strTruthy, hp]
  intro h; exact absurd h he

/-- C10 witness: a concrete request carrying both fields. -/
theorem c10_witness :
    ("9876543210" : String) ≠ "" ∧
    verifyHandler emptyOtpDb (some "9876543210") (some "user@example.com") "123456" 0 =
      verifyHandler emptyOtpDb (some "9876543210") none "123456" 0 :=
  ⟨by decide,
   (c10_phone_branch_priority emptyOtpDb "9876543210" "user@example.com" "123456" 0
      (by decide)).1⟩

/-! Helper lemmas about the identity-resolution operations. -/

theorem upsertDetail_users (db : UsersDb) (uid : Nat) (fn ln ph : Option String) :
    (upsertDetail db uid fn ln ph).users = db.users := by
  unfold upsertDetail; split <;> rfl

theorem tryAssignRole_users (db : UsersDb) (uid : Nat) (roleName : String) :
    (tryAssignRole db uid roleName).users = db.users := by
  unfold tryAssignRole
  cases h : assignRole db uid roleName with
  | none => rfl
  | some db2 =>
      unfold assignRole at h
      split at h
      · cases h; rfl
      · cases h

/-- A fresh email makes `createUser` (as called by `/create-user`) return
the new row and append exactly it to the users table. -/
theorem createUser_fresh (db : UsersDb) (id : Nat) (email : String)
    (hf : db.users.any (fun u => u.email == strLower email) = false) :
    (createUser db id email none none none "managers" true).1 =
      some ⟨id, strLower email⟩ ∧
    (createUser db id email none none none "managers" true).2.users =
      db.users ++ [⟨id, strLower email⟩] := by
  unfold createUser insertUserRow
  by_cases htd : hasTempDomain email = true <;>
    simp [hf, htd, tryAssignRole_users, upsertDetail_users]

/-- A duplicate email makes the plain insert inside `createUser` raise, and
the call return no user with the store unchanged. -/
theorem createUser_dup (db : UsersDb) (id : Nat) (email role : String)
    (fn ln ph : Option String) (detailOk : Bool)
    (hd : db.users.any (fun u => u.email == strLower email) = true) :
    createUser db id email fn ln ph role detailOk = (none, db) := by
  unfold createUser insertUserRow
  simp [hd]

theorem find?_append_of_none {α} (p : α → Bool) (l₁ l₂ : List α)
    (h : l₁.find? p = none) : (l₁ ++ l₂).find? p = l₂.find? p := by
  induction l₁ with
  | nil => rfl
  | cons a t ih =>
      cases hpa : p a
      · rw [List.find?_cons, hpa] at h
        rw [List.cons_append, List.find?_cons, hpa]
        exact ih h
      · rw [List.find?_cons, hpa] at h
        cases h

theorem any_eq_false_of_find?_none {α} (p : α → Bool) (l : List α)
    (h : l.find? p = none) : l.any p = false := by
  induction l with
  | nil => rfl
  | cons a t ih =>
      cases hpa : p a
      · rw [List.find?_cons, hpa] at h
        simp [hpa, ih h]
      · rw [List.find?_cons, hpa] at h
        cases h

/-- C7 counterexample: two concurrent `/create-user` requests for the same
new email, interleaved so both lookups precede both inserts, make the
second caller observe a 500 (its plain `INSERT` hits the unique-email
constraint; the handler has no upsert and no try/catch), refuting "neither
caller observes an error". -/
theorem c7_counterexample :
    (createUserTwiceOverlapped emptyUsersDb "user@example.com" 1 2).1 =
      .created 1 ∧
    (createUserTwiceOverlapped emptyUsersDb "user@example.com" 1 2).2.1 =
      .serverError ∧
    (createUserTwiceOverlapped emptyUsersDb "user@example.com" 1 2).2.2.users =
      [⟨1, "user@example.com"⟩] :=
  ⟨rfl, by decide, by decide⟩

/-- C7 amended: identity creation is idempotent only sequentially — a
second, non-overlapping `/create-user` with the same email observes the
winner's row and both callers receive the same id with exactly one row
persisted; under the overlapped schedule in which both lookups precede both
inserts, exactly one row is persisted but the losing caller observes an
error, because `createUser` uses a plain `INSERT` with no
`ON CONFLICT`/upsert and the handler does not catch it. -/
theorem c7_amended_create_user (db : UsersDb) (email : String) (idA idB : Nat)
    (h : findUserByEmail db email = none) :
    ((createUserTwiceSeq db email idA idB).1 = .created idA ∧
     (createUserTwiceSeq db email idA idB).2.1 = .loginExisting idA ∧
     ((createUserTwiceSeq db email idA idB).2.2.users.filter
        (fun u => u.email == strLower email)).length = 1) ∧
    ((createUserTwiceOverlapped db email idA idB).1 = .created idA ∧
     (createUserTwiceOverlapped db email idA idB).2.1 = .serverError ∧
     ((createUserTwiceOverlapped db email idA idB).2.2.users.filter
        (fun u => u.email == strLower email)).length = 1) := by
  have hany : db.users.any (fun u => u.email == strLower email) = false :=
    any_eq_false_of_find?_none _ _ h
  have hfilter : db.users.filter (fun u => u.email == strLower email) = [] := by
    rw [List.filter_eq_nil_iff]
    intro u hu hmem
    have := List.any_eq_false.mp hany u hu
    exact this hmem
  obtain ⟨hA1, hA2⟩ := createUser_fresh db idA email hany
  cases hcA : createUser db idA email none none none "managers" true with
  | mk ua dbA =>
      rw [hcA] at hA1 hA2
      simp only at hA1 hA2
      subst hA1
      have hfindA : findUserByEmail dbA email = some ⟨idA, strLower email⟩ := by
        unfold findUserByEmail
        rw [hA2, find?_append_of_none _ _ _ (by unfold findUserByEmail at h; exact h)]
        simp [List.find?_cons]
      have hanyA : dbA.users.any (fun u => u.email == strLower email) = true := by
        rw [hA2]
        simp [List.any_append]
      have hfilterA :
          (dbA.users.filter (fun u => u.email == strLower email)).length = 1 := by
        rw [hA2, List.filter_append, hfilter]
        simp
      constructor
      · -- sequential schedule
        unfold createUserTwiceSeq createUserAction
        simp only [h, hcA, hfindA]
        exact ⟨trivial, trivial, hfilterA⟩
      · -- overlapped schedule
        unfold createUserTwiceOverlapped createUserAction
        simp only [h, hcA, createUser_dup dbA idB email "managers" none none none true hanyA]
        exact ⟨trivial, trivial, hfilterA⟩

/-- C7 witness: the amended property at a concrete store and email. -/
theorem c7_witness :
    findUserByEmail emptyUsersDb "user@example.com" = none ∧
    (createUserTwiceSeq emptyUsersDb "user@example.com" 1 2).2.1 =
      .loginExisting 1 :=
  ⟨rfl, (c7_amended_create_user emptyUsersDb "user@example.com" 1 2 rfl).1.2.1⟩

/-- C9 counterexample: a `createUser` call whose `user_details` insert
fails (here for a phone-style placeholder email, which triggers that
insert) throws — no user is returned to the caller — even though the users
row has already been persisted; this refutes "the user row is still created
and returned to the caller" for profile-row failures. -/
theorem c9_counterexample :
    (createUser emptyUsersDb 1 "x@hissabbook.temp" none none none "managers"
      false).1 = none ∧
    (createUser emptyUsersDb 1 "x@hissabbook.temp" none none none "managers"
      false).2.users = [⟨1, "x@hissabbook.temp"⟩] :=
  ⟨rfl, by decide⟩

/-- C9 amended: identity creation never fails because of a role-assignment
failure — `assignRole` errors are logged and swallowed, and the user is
returned for every role name and role table, including absent ones — but a
failure of the associated `user_details` profile-row insert is not
swallowed: the call then returns no user to its caller although the users
row remains persisted. -/
theorem c9_amended_create_user_errors (db : UsersDb) (id : Nat)
    (email role : String) (fn ln ph : Option String) (detailOk : Bool)
    (hf : db.users.any (fun u => u.email == strLower email) = false) :
    (detailOk = true →
      (createUser db id email fn ln ph role detailOk).1 =
        some ⟨id, strLower email⟩) ∧
    ((fn.isSome || ln.isSome || ph.isSome || hasTempDomain email) = true →
      detailOk = false →
      (createUser db id email fn ln ph role detailOk).1 = none ∧
      (createUser db id email fn ln ph role detailOk).2.users =
        db.users ++ [⟨id, strLower email⟩]) := by
  unfold createUser insertUserRow
  constructor
  · intro hd
    subst hd
    by_cases hcond : (fn.isSome || ln.isSome || ph.isSome || hasTempDomain email) = true <;>
      simp [hf, hcond]
  · intro hcond hd
    subst hd
    simp [hf, hcond]

/-- C9 witness: with an empty roles table (so the "managers" assignment
fails and is swallowed) the user is still created and returned; with a
failing details insert on a placeholder email the call returns no user. -/
theorem c9_witness :
    (emptyUsersDb.users.any (fun u => u.email == strLower "a@b.com") = false) ∧
    (createUser emptyUsersDb 7 "a@b.com" none none none "managers" true).1 =
      some ⟨7, strLower "a@b.com"⟩ ∧
    (createUser emptyUsersDb 8 "y@hissabbook.temp" none none none "managers"
      false).1 = none :=
  ⟨rfl,
   (c9_amended_create_user_errors emptyUsersDb 7 "a@b.com" "managers"
      none none none true rfl).1 rfl,
   ((c9_amended_create_user_errors emptyUsersDb 8 "y@hissabbook.temp" "managers"
      none none none false rfl).2 (by decide) rfl).1⟩

end Hissab
